import Mathlib

/-!
Shallow embedding of `ghub_updater.py` (class `GhubUpdater` and the entry
point `main`): the update state-machine driver for the G-HUB desktop
application.

Modelling conventions:
* Backend responses and collaborator outcomes are supplied through explicit
  environment records; a raised Python exception becomes `Except GhubError`.
* The `RuntimeError` / `TimeoutError` values raised by the code are mapped to
  the named error kinds of the specification (`LaunchFailure`,
  `ChannelMismatch`, ...); exceptions raised by the external collaborators
  (transport timeouts, JSON parse errors, missing payload keys) are `pyError`.
* Each busy-wait loop reads a clock `t : Nat -> Nat` giving the wall-clock
  time observed at the i-th loop-condition check; the deadline is computed
  once, at loop entry, as `t 0 + max_time`, exactly like
  `end_time = start_time + max_time` in the code.  A fuel argument bounds the
  recursion; with a strictly advancing clock the deadline always fires before
  the fuel runs out, so the fuel-exhaustion branch is unreachable.
* The value of `self.backend.process.is_not_running` is an arbitrary Python
  value, modelled by `PyFlag` (None, True, False, or any other object with a
  given truthiness).
* Python truthiness of the `check_for_update` result (`False`, `""`, or a
  non-empty version string) is `pyTruthyStr`.
* Backend traffic and process-controller actions are recorded in an `Event`
  trace so that theorems can speak about which calls are made and in which
  order.
-/

/-- Verbs used by `Websocket.send_message`. -/
inductive Verb
  | GET
  | SET
  deriving DecidableEq, Repr

/-- The JSON payload sent with SET `/updates/channel`: in the source it is
`json.dumps({"name": channel_name, "password": password})`.  No other call in
the file sends a payload. -/
structure ChannelPayload where
  name : String
  password : String
  deriving DecidableEq, Repr

/-- One observable action of the driver: a backend message, a response
retrieval, a sleep, or a process-controller operation. -/
inductive Event
  | send (verb : Verb) (path : String) (payload : Option ChannelPayload)
  | getResponse (verb : Verb) (path : String)
  | sleep (seconds : Nat)
  | kill (procName : String)
  | launchAll
  | terminateAll
  deriving DecidableEq, Repr

/-- Error kinds.  The code raises `RuntimeError` / `TimeoutError` with
distinct messages; the specification names them as below.  `pyError` stands
for any exception raised inside an external collaborator call. -/
inductive GhubError
  | LaunchFailure
  | ChannelMismatch
  | UpdaterError
  | UpdateCheckTimeout
  | DownloadTimeout
  | InstallIncomplete
  | ConnectionTimeout
  | StatePollTimeout
  | pyError (msg : String)
  deriving DecidableEq, Repr

/-- A Python value read from `self.backend.process.is_not_running`:
`None`, `True`, `False`, or any other object carrying some truthiness. -/
inductive PyFlag
  | pnone
  | ptrue
  | pfalse
  | pother (truthy : Bool)
  deriving DecidableEq, Repr

/-- Python `x is None`. -/
def PyFlag.isNone : PyFlag → Bool
  | .pnone => true
  | _ => false

/-- Python `x is True`. -/
def PyFlag.isTrue : PyFlag → Bool
  | .ptrue => true
  | _ => false

/-- Python `bool(x)`. -/
def PyFlag.truthy : PyFlag → Bool
  | .pnone => false
  | .ptrue => true
  | .pfalse => false
  | .pother b => b

/-- Python truthiness of `check_for_update`'s return value: `False` is falsy,
a string is truthy iff it is non-empty. -/
def pyTruthyStr : Option String → Bool
  | none => false
  | some v => if v = "" then false else true

/-- Python `==` between `check_for_update`'s return value and a string:
`False == s` is `False`; `v == s` is string equality. -/
def pyStrEq : Option String → String → Bool
  | none, _ => false
  | some v, w => v == w

/-- Python `str.strip()`: drop leading and trailing whitespace. -/
def pyStrip (s : String) : String :=
  String.mk (((s.data.dropWhile Char.isWhitespace).reverse.dropWhile Char.isWhitespace).reverse)

/-- Payload of a GET `/updates/channel` response: the `name` field. -/
structure ChannelResp where
  name : String
  deriving DecidableEq, Repr

/-- Payload of a GET `/updates/info` response: `version`, `buildId`,
`branch`. -/
structure InfoResp where
  version : String
  buildId : String
  branch : String
  deriving DecidableEq, Repr

/-- The dictionary assembled by `get_build_info`. -/
structure BuildInfo where
  channel : String
  version : String
  buildId : String
  branch : String
  deriving DecidableEq, Repr

/-- Outcome of one `launch_ghub` attempt: the `try` block either completes,
or `self.app.terminate_all(True)` raises, or `self.app.launch_all(True)`
raises (`time.sleep` never raises). -/
inductive LaunchAttempt
  | ok
  | failTerminate
  | failLaunch
  deriving DecidableEq, Repr

/-- Whether the attempt's `try` block raised. -/
def LaunchAttempt.fails : LaunchAttempt → Bool
  | .ok => false
  | _ => true

/-- Collaborator calls performed by one `launch_ghub` attempt (an attempt that
raises in `terminate_all` never reaches the sleep or the launch). -/
def attemptEvents : LaunchAttempt → List Event
  | .ok => [.terminateAll, .sleep 10, .launchAll]
  | .failTerminate => [.terminateAll]
  | .failLaunch => [.terminateAll, .sleep 10, .launchAll]

/-- The `for number in range(retry)` loop of `launch_ghub`, starting at
attempt index `i` with `f` attempts left.  Returns the trace, the number of
attempts performed, and the result; the `for`/`else` clause raises
`LaunchFailure` when every attempt raised. -/
def launch_ghub_aux (att : Nat → LaunchAttempt) : Nat → Nat → List Event × Nat × Except GhubError Unit
  | _, 0 => ([], 0, .error .LaunchFailure)
  | i, f + 1 =>
    if (att i).fails then
      (attemptEvents (att i) ++ (launch_ghub_aux att (i + 1) f).1,
        (launch_ghub_aux att (i + 1) f).2.1 + 1,
        (launch_ghub_aux att (i + 1) f).2.2)
    else (attemptEvents (att i), 1, .ok ())

/-- Embeds `GhubUpdater.launch_ghub(retry)`: close and launch the application,
retrying up to `retry` times (the source's default is `retry=5`). -/
def launch_ghub (att : Nat → LaunchAttempt) (retry : Nat) : List Event × Nat × Except GhubError Unit :=
  launch_ghub_aux att 0 retry

/-- Environment of one `get_build_info` call: the (parsed) responses buffered
for GET `/updates/channel` and GET `/updates/info`; `Except.error msg` means
the retrieval, the JSON parse, or the payload-key lookup raised a Python
exception with message `msg` (it becomes `GhubError.pyError msg`). -/
structure BuildEnv where
  channelResp : Except String ChannelResp
  infoResp : Except String InfoResp

/-- Embeds `GhubUpdater.get_build_info()`: two GETs, assembling the `build_info`
dictionary; any collaborator failure propagates. -/
def get_build_info (env : BuildEnv) : List Event × Except GhubError BuildInfo :=
  match env.channelResp with
  | .error e =>
    ([.send .GET "/updates/channel" none, .getResponse .GET "/updates/channel"], .error (.pyError e))
  | .ok c =>
    match env.infoResp with
    | .error e =>
      ([.send .GET "/updates/channel" none, .getResponse .GET "/updates/channel",
        .send .GET "/updates/info" none, .getResponse .GET "/updates/info"], .error (.pyError e))
    | .ok i =>
      ([.send .GET "/updates/channel" none, .getResponse .GET "/updates/channel",
        .send .GET "/updates/info" none, .getResponse .GET "/updates/info"],
        .ok { channel := c.name, version := i.version, buildId := i.buildId, branch := i.branch })

/-- Embeds `GhubUpdater.print_build_info(title)`: fetches the build info and prints
it; only the fetch is observable. -/
def print_build_info (env : BuildEnv) : List Event × Except GhubError Unit :=
  match get_build_info env with
  | (t, .error e) => (t, .error e)
  | (t, .ok _) => (t, .ok ())

/-- The in-flight update states checked by `reset_existing_update_process`. -/
def update_states : List String :=
  ["CHECKING_FOR_UPDATES", "UPDATE_DOWNLOADING", "UPDATE_UNPACKING", "UPDATE_READY"]

/-- Embeds `GhubUpdater.reset_existing_update_process()`: GET `/updates/status`; if
the state is mid-flight, reset, purge, kill the updater helper, sleep 10s and
relaunch. -/
def reset_existing_update_process (statusResp : Except String String)
    (relaunch : Nat → LaunchAttempt) : List Event × Except GhubError Unit :=
  match statusResp with
  | .error e =>
    ([.send .GET "/updates/status" none, .getResponse .GET "/updates/status"], .error (.pyError e))
  | .ok st =>
    if st ∈ update_states then
      ([.send .GET "/updates/status" none, .getResponse .GET "/updates/status",
        .send .SET "/updates/reset" none, .send .SET "/updates/purge" none,
        .kill "lghub_updater", .sleep 10] ++ (launch_ghub relaunch 5).1,
        (launch_ghub relaunch 5).2.2)
    else ([.send .GET "/updates/status" none, .getResponse .GET "/updates/status"], .ok ())

/-- Embeds `GhubUpdater.set_channel(channel_name, password, access_tokens)`: trim
the name, SET `/updates/channel` with `{name, password}` (the
`access_tokens` argument is never used), re-GET the same path and require the
reflected name to equal the trimmed name; otherwise raise `ChannelMismatch`. -/
def set_channel (channel_name password access_tokens : String)
    (resp : Except String ChannelResp) : List Event × Except GhubError Unit :=
  match resp with
  | .error e =>
    ([.send .SET "/updates/channel" (some { name := pyStrip channel_name, password := password }),
      .send .GET "/updates/channel" none, .getResponse .GET "/updates/channel"], .error (.pyError e))
  | .ok r =>
    ([.send .SET "/updates/channel" (some { name := pyStrip channel_name, password := password }),
      .send .GET "/updates/channel" none, .getResponse .GET "/updates/channel"],
      if r.name = pyStrip channel_name then .ok () else .error .ChannelMismatch)

/-- Environment of one `check_for_update` call: the status response observed
after the reset / check_now / 10-second settle, and the `/updates/next/info`
response (used only on the default branch). -/
structure CheckEnv where
  statusResp : Except String String
  nextResp : Except String String

/-- The calls `check_for_update` always performs before classifying:
SET reset, SET check_now, a fixed 10-second settle sleep, then the status
GET. -/
def checkTraceBase : List Event :=
  [.send .SET "/updates/reset" none, .send .SET "/updates/check_now" none, .sleep 10,
   .send .GET "/updates/status" none, .getResponse .GET "/updates/status"]

/-- Embeds `GhubUpdater.check_for_update()`: classify the post-settle status.
`UPDATER_ERROR` raises `UpdaterError`; `CHECKING_FOR_UPDATES` kills the
updater helper, sleeps 10s and raises `UpdateCheckTimeout`; `NO_UPDATES`
returns `False` (here `none`); any other state returns the
`/updates/next/info` version (here `some version`). -/
def check_for_update (env : CheckEnv) : List Event × Except GhubError (Option String) :=
  match env.statusResp with
  | .error e => (checkTraceBase, .error (.pyError e))
  | .ok update_state =>
    if update_state = "UPDATER_ERROR" then (checkTraceBase, .error .UpdaterError)
    else if update_state = "CHECKING_FOR_UPDATES" then
      (checkTraceBase ++ [.kill "lghub_updater", .sleep 10], .error .UpdateCheckTimeout)
    else if update_state = "NO_UPDATES" then (checkTraceBase, .ok none)
    else
      match env.nextResp with
      | .error e =>
        (checkTraceBase ++ [.send .GET "/updates/next/info" none, .getResponse .GET "/updates/next/info"],
          .error (.pyError e))
      | .ok v =>
        (checkTraceBase ++ [.send .GET "/updates/next/info" none, .getResponse .GET "/updates/next/info"],
          .ok (some v))

/-- Environment of a connection-liveness wait: the value of
`self.backend.process.is_not_running` at the i-th loop iteration, and the
wall-clock time at the i-th loop-condition check. -/
structure WaitEnv where
  flag : Nat → PyFlag
  clock : Nat → Nat

/-- The busy-wait loop shared by `wait_until_backend_connected` (with
`pred := PyFlag.isNone`, i.e. `status is None`) and
`wait_until_backend_disconnected` (with `pred := PyFlag.isTrue`, i.e.
`status is True`).  The loop runs `while end_time > time.time()`; `d` is the
deadline `end_time`, fixed at entry.  The fuel only bounds the recursion. -/
def waitFlagAux (pred : PyFlag → Bool) (flag : Nat → PyFlag) (t : Nat → Nat) (d : Nat) :
    Nat → Nat → Except GhubError Bool
  | _, 0 => .error .ConnectionTimeout
  | i, f + 1 =>
    if t i < d then
      (if pred (flag i) then .ok true else waitFlagAux pred flag t d (i + 1) f)
    else .error .ConnectionTimeout

/-- Embeds `GhubUpdater.wait_until_backend_connected(max_time)`: busy-poll the
liveness flag, no backend calls; return `True` at the first iteration where
`status is None`, raise `ConnectionTimeout` once the deadline
`t 0 + max_time` has passed (the source's default is `max_time=600`). -/
def wait_until_backend_connected (env : WaitEnv) (max_time : Nat) : Except GhubError Bool :=
  waitFlagAux PyFlag.isNone env.flag env.clock (env.clock 0 + max_time) 0 max_time

/-- Embeds `GhubUpdater.wait_until_backend_disconnected(max_time)`: same loop,
returning `True` at the first iteration where `status is True`. -/
def wait_until_backend_disconnected (env : WaitEnv) (max_time : Nat) : Except GhubError Bool :=
  waitFlagAux PyFlag.isTrue env.flag env.clock (env.clock 0 + max_time) 0 max_time

/-- Environment of a `wait_for_update_state` loop: per-iteration liveness
flag, per-iteration status outcome (`Except.error` when the send / retrieve /
parse raised inside the `try`), and the clock at each loop-condition check. -/
structure PollEnv where
  notRunning : Nat → PyFlag
  status : Nat → Except Unit String
  clock : Nat → Nat

/-- The two backend calls of one non-skipped polling iteration. -/
def pollCallEvents : List Event :=
  [.send .GET "/updates/status" none, .getResponse .GET "/updates/status"]

/-- Backend calls of the i-th polling iteration: none when the iteration is
skipped because `is_not_running` is truthy. -/
def pollIterEvents (nr : Nat → PyFlag) (i : Nat) : List Event :=
  if (nr i).truthy then [] else pollCallEvents

/-- Concatenated per-iteration calls of iterations `i, i+1, ..., i+n-1`. -/
def tracesUpTo (nr : Nat → PyFlag) : Nat → Nat → List Event
  | _, 0 => []
  | i, n + 1 => pollIterEvents nr i ++ tracesUpTo nr (i + 1) n

/-- The `while end_time > time.time()` loop of `wait_for_update_state`:
skip the iteration when `is_not_running` is truthy; otherwise GET
`/updates/status`, swallowing any exception; return `True` when the state
equals `expected`; raise `StatePollTimeout` at the deadline. -/
def waitStateAux (expected : String) (nr : Nat → PyFlag) (st : Nat → Except Unit String)
    (t : Nat → Nat) (d : Nat) : Nat → Nat → List Event × Except GhubError Bool
  | _, 0 => ([], .error .StatePollTimeout)
  | i, f + 1 =>
    if t i < d then
      if (nr i).truthy then
        waitStateAux expected nr st t d (i + 1) f
      else
        match st i with
        | .error _ =>
          (pollCallEvents ++ (waitStateAux expected nr st t d (i + 1) f).1,
            (waitStateAux expected nr st t d (i + 1) f).2)
        | .ok s =>
          if s = expected then (pollCallEvents, .ok true)
          else
            (pollCallEvents ++ (waitStateAux expected nr st t d (i + 1) f).1,
              (waitStateAux expected nr st t d (i + 1) f).2)
    else ([], .error .StatePollTimeout)

/-- Embeds `GhubUpdater.wait_for_update_state(expected_state, max_time)`: busy-poll
`/updates/status` until the state equals `expected` (the source's default is
`max_time=600`). -/
def wait_for_update_state (expected : String) (env : PollEnv) (max_time : Nat) :
    List Event × Except GhubError Bool :=
  waitStateAux expected env.notRunning env.status env.clock (env.clock 0 + max_time) 0 max_time

/-- Embeds `GhubUpdater.download_new_update()`: SET `/updates/download`, then wait
for `UPDATE_READY`; any failure of the wait is re-raised as
`DownloadTimeout`. -/
def download_new_update (env : PollEnv) : List Event × Except GhubError Unit :=
  match wait_for_update_state "UPDATE_READY" env 600 with
  | (t, .ok _) => ([.send .SET "/updates/download" none] ++ t, .ok ())
  | (t, .error _) => ([.send .SET "/updates/download" none] ++ t, .error .DownloadTimeout)

/-- Environment of one `install_new_update` call.  `installSendRaises` says
whether `send_message(SET, /updates/install)` raises; the surrounding
`try`/`except` swallows that exception (only a warning is printed), so
nothing downstream can depend on it. -/
structure InstallEnv where
  installSendRaises : Bool
  disc : WaitEnv
  conn : WaitEnv
  check2 : CheckEnv

/-- Embeds `GhubUpdater.install_new_update()`: SET `/updates/install` (failure is
only logged), wait for the backend to disconnect then reconnect (600s each),
sleep a fixed 20s, re-run `check_for_update()`; raise `InstallIncomplete`
when its result is truthy. -/
def install_new_update (env : InstallEnv) : List Event × Except GhubError Unit :=
  match wait_until_backend_disconnected env.disc 600 with
  | .error e => ([.send .SET "/updates/install" none], .error e)
  | .ok _ =>
    match wait_until_backend_connected env.conn 600 with
    | .error e => ([.send .SET "/updates/install" none], .error e)
    | .ok _ =>
      match check_for_update env.check2 with
      | (tc, .error e) => ([.send .SET "/updates/install" none, .sleep 20] ++ tc, .error e)
      | (tc, .ok v) =>
        if pyTruthyStr v then
          ([.send .SET "/updates/install" none, .sleep 20] ++ tc, .error .InstallIncomplete)
        else ([.send .SET "/updates/install" none, .sleep 20] ++ tc, .ok ())

/-- Environment of one `start` call: the collaborator outcomes consumed by
each step, in program order. -/
structure StartEnv where
  launch1 : Nat → LaunchAttempt
  resetStatus : Except String String
  resetRelaunch : Nat → LaunchAttempt
  build1 : BuildEnv
  channelResp : Except String ChannelResp
  check1 : CheckEnv
  dl : PollEnv
  inst : InstallEnv
  build2 : BuildEnv
  build3 : BuildEnv

/-- Embeds `GhubUpdater.start(channel_name, password, access_tokens)`: the top-level
workflow.  The returned `Bool` records whether the final
`self.app.terminate_all(True)` on the last line of `start` was executed;
there is no `try`/`finally` in `start`, so any raised step propagates
immediately. -/
def start (channel_name password access_tokens : String) (env : StartEnv) :
    List Event × Bool × Except GhubError Unit :=
  match launch_ghub env.launch1 5 with
  | (t1, _, .error e) => (t1, false, .error e)
  | (t1, _, .ok _) =>
    match reset_existing_update_process env.resetStatus env.resetRelaunch with
    | (t2, .error e) => (t1 ++ t2, false, .error e)
    | (t2, .ok _) =>
      match print_build_info env.build1 with
      | (t3, .error e) => (t1 ++ t2 ++ t3, false, .error e)
      | (t3, .ok _) =>
        match set_channel channel_name password access_tokens env.channelResp with
        | (t4, .error e) => (t1 ++ t2 ++ t3 ++ t4, false, .error e)
        | (t4, .ok _) =>
          match check_for_update env.check1 with
          | (t5, .error e) => (t1 ++ t2 ++ t3 ++ t4 ++ t5, false, .error e)
          | (t5, .ok new_version) =>
            if pyTruthyStr new_version then
              match download_new_update env.dl with
              | (t6, .error e) => (t1 ++ t2 ++ t3 ++ t4 ++ t5 ++ t6, false, .error e)
              | (t6, .ok _) =>
                match install_new_update env.inst with
                | (t7, .error e) => (t1 ++ t2 ++ t3 ++ t4 ++ t5 ++ t6 ++ t7, false, .error e)
                | (t7, .ok _) =>
                  match get_build_info env.build2 with
                  | (t8, .error e) => (t1 ++ t2 ++ t3 ++ t4 ++ t5 ++ t6 ++ t7 ++ t8, false, .error e)
                  | (t8, .ok b) =>
                    if pyStrEq new_version b.version then
                      match print_build_info env.build3 with
                      | (t9, .error e) =>
                        (t1 ++ t2 ++ t3 ++ t4 ++ t5 ++ t6 ++ t7 ++ t8 ++ t9, false, .error e)
                      | (t9, .ok _) =>
                        (t1 ++ t2 ++ t3 ++ t4 ++ t5 ++ t6 ++ t7 ++ t8 ++ t9 ++ [Event.terminateAll],
                          true, .ok ())
                    else
                      (t1 ++ t2 ++ t3 ++ t4 ++ t5 ++ t6 ++ t7 ++ t8 ++ [Event.terminateAll],
                        true, .ok ())
            else (t1 ++ t2 ++ t3 ++ t4 ++ t5 ++ [Event.terminateAll], true, .ok ())

/-- The entry point `main()` (renamed `main_entry`, since Lean reserves
`main` for executables): run `start` once with the parsed arguments; on
any exception run it a second time with the same arguments (uncaught); the
`finally` block always calls `terminate_all`.  `w1` and `w2` are the
collaborator outcomes seen by the first and the second invocation. -/
def main_entry (channel password token : String) (w1 w2 : StartEnv) : List Event × Except GhubError Unit :=
  match start channel password token w1 with
  | (t1, _, .ok _) => (t1 ++ [Event.terminateAll], .ok ())
  | (t1, _, .error _) =>
    (t1 ++ (start channel password token w2).1 ++ [Event.terminateAll],
      (start channel password token w2).2.2)

/-- A polling environment whose backend immediately reports `UPDATE_READY`. -/
def pollTrivialEnv : PollEnv :=
  { notRunning := fun _ => .pfalse, status := fun _ => .ok "UPDATE_READY", clock := id }

/-- A liveness environment whose flag is constantly `f`. -/
def waitConst (f : PyFlag) : WaitEnv := { flag := fun _ => f, clock := id }

/-- An install environment whose waits succeed at once and whose post-install
check reports `NO_UPDATES`. -/
def installTrivialEnv : InstallEnv :=
  { installSendRaises := false, disc := waitConst .ptrue, conn := waitConst .pnone,
    check2 := { statusResp := .ok "NO_UPDATES", nextResp := .ok "" } }

/-- An install environment whose post-install check lands in the default
branch and reads an empty version string from `/updates/next/info`. -/
def installCexEnv : InstallEnv :=
  { installSendRaises := false, disc := waitConst .ptrue, conn := waitConst .pnone,
    check2 := { statusResp := .ok "UPDATE_READY", nextResp := .ok "" } }

/-- An install environment whose post-install check still reports version
"9.9" as available. -/
def installWitnessEnv : InstallEnv :=
  { installCexEnv with check2 := { statusResp := .ok "UPDATE_READY", nextResp := .ok "9.9" } }

/-- A build-info environment with fixed successful responses. -/
def buildOkEnv : BuildEnv :=
  { channelResp := .ok { name := "auto_regression" },
    infoResp := .ok { version := "1.0", buildId := "7", branch := "main" } }

/-- The `BuildInfo` assembled from `buildOkEnv`. -/
def buildOkReport : BuildInfo :=
  { channel := "auto_regression", version := "1.0", buildId := "7", branch := "main" }

/-- A `start` environment in which every step succeeds except channel
configuration: the backend reflects channel "Stable" although "Beta" is
requested, so `set_channel` raises `ChannelMismatch`. -/
def startCexEnv : StartEnv :=
  { launch1 := fun _ => .ok,
    resetStatus := .ok "IDLE",
    resetRelaunch := fun _ => .ok,
    build1 := buildOkEnv,
    channelResp := .ok { name := "Stable" },
    check1 := { statusResp := .ok "NO_UPDATES", nextResp := .ok "" },
    dl := pollTrivialEnv,
    inst := installTrivialEnv,
    build2 := buildOkEnv,
    build3 := buildOkEnv }

/-- Like `startCexEnv` but with the channel correctly reflected, so every
step of `start` succeeds (the check reports no update available). -/
def startOkEnv : StartEnv := { startCexEnv with channelResp := .ok { name := "Beta" } }

theorem bool_eq_false {b : Bool} (h : ¬ b = true) : b = false := by
  cases b with
  | false => rfl
  | true => exact absurd rfl h

theorem strictMono_nat_add_le {t : Nat → Nat} (ht : StrictMono t) (i k : Nat) :
    t i + k ≤ t (i + k) := by
  induction k with
  | zero => simp
  | succ k ih =>
    have h1 : t (i + k) < t (i + k + 1) := ht (Nat.lt_succ_self (i + k))
    have h2 : i + (k + 1) = i + k + 1 := by omega
    rw [h2]
    omega

theorem waitFlagAux_zero (pred : PyFlag → Bool) (flag : Nat → PyFlag) (t : Nat → Nat) (d i : Nat) :
    waitFlagAux pred flag t d i 0 = .error .ConnectionTimeout := rfl

theorem waitFlagAux_succ (pred : PyFlag → Bool) (flag : Nat → PyFlag) (t : Nat → Nat) (d i f : Nat) :
    waitFlagAux pred flag t d i (f + 1) =
      if t i < d then
        (if pred (flag i) then .ok true else waitFlagAux pred flag t d (i + 1) f)
      else .error .ConnectionTimeout := rfl

theorem waitFlagAux_dichotomy (pred : PyFlag → Bool) (flag : Nat → PyFlag) (t : Nat → Nat) (d : Nat) :
    ∀ f i, waitFlagAux pred flag t d i f = .ok true ∨
      waitFlagAux pred flag t d i f = .error .ConnectionTimeout := by
  intro f
  induction f with
  | zero => intro i; right; rfl
  | succ f ih =>
    intro i
    rw [waitFlagAux_succ]
    by_cases h1 : t i < d
    · rw [if_pos h1]
      by_cases h2 : pred (flag i) = true
      · rw [if_pos h2]; left; rfl
      · rw [if_neg h2]; exact ih (i + 1)
    · rw [if_neg h1]; right; rfl

theorem waitFlagAux_ok_iff (pred : PyFlag → Bool) (flag : Nat → PyFlag) {t : Nat → Nat}
    (ht : StrictMono t) (d : Nat) :
    ∀ f i, d ≤ t i + f →
      (waitFlagAux pred flag t d i f = .ok true ↔
        ∃ j, i ≤ j ∧ t j < d ∧ pred (flag j) = true) := by
  intro f
  induction f with
  | zero =>
    intro i hd
    rw [waitFlagAux_zero]
    constructor
    · intro h; exact absurd h (by simp)
    · rintro ⟨j, hij, hj, -⟩
      have hm : t i ≤ t j := ht.monotone hij
      omega
  | succ f ih =>
    intro i hd
    have h3 : t i < t (i + 1) := ht (Nat.lt_succ_self i)
    rw [waitFlagAux_succ]
    by_cases h1 : t i < d
    · rw [if_pos h1]
      by_cases h2 : pred (flag i) = true
      · rw [if_pos h2]
        constructor
        · intro _; exact ⟨i, Nat.le_refl i, h1, h2⟩
        · intro _; rfl
      · rw [if_neg h2]
        rw [ih (i + 1) (by omega)]
        constructor
        · rintro ⟨j, hij, hj, hpj⟩; exact ⟨j, by omega, hj, hpj⟩
        · rintro ⟨j, hij, hj, hpj⟩
          rcases Nat.eq_or_lt_of_le hij with rfl | hlt
          · exact absurd hpj h2
          · exact ⟨j, by omega, hj, hpj⟩
    · rw [if_neg h1]
      constructor
      · intro h; exact absurd h (by simp)
      · rintro ⟨j, hij, hj, -⟩
        have hm : t i ≤ t j := ht.monotone hij
        omega

theorem waitFlagAux_error_iff (pred : PyFlag → Bool) (flag : Nat → PyFlag) {t : Nat → Nat}
    (ht : StrictMono t) (d : Nat) :
    ∀ f i, d ≤ t i + f →
      (waitFlagAux pred flag t d i f = .error .ConnectionTimeout ↔
        ¬ ∃ j, i ≤ j ∧ t j < d ∧ pred (flag j) = true) := by
  intro f i hd
  rcases waitFlagAux_dichotomy pred flag t d f i with h | h
  · rw [h]
    constructor
    · intro hh; exact absurd hh (by simp)
    · intro hn; exact absurd ((waitFlagAux_ok_iff pred flag ht d f i hd).mp h) hn
  · rw [h]
    constructor
    · intro _ hex
      have hok := (waitFlagAux_ok_iff pred flag ht d f i hd).mpr hex
      rw [h] at hok
      exact absurd hok (by simp)
    · intro _; rfl

theorem tracesUpTo_zero (nr : Nat → PyFlag) (i : Nat) : tracesUpTo nr i 0 = [] := rfl

theorem tracesUpTo_succ (nr : Nat → PyFlag) (i n : Nat) :
    tracesUpTo nr i (n + 1) = pollIterEvents nr i ++ tracesUpTo nr (i + 1) n := rfl

theorem waitStateAux_zero (expected : String) (nr : Nat → PyFlag) (st : Nat → Except Unit String)
    (t : Nat → Nat) (d i : Nat) :
    waitStateAux expected nr st t d i 0 = ([], .error .StatePollTimeout) := rfl

theorem waitStateAux_succ (expected : String) (nr : Nat → PyFlag) (st : Nat → Except Unit String)
    (t : Nat → Nat) (d i f : Nat) :
    waitStateAux expected nr st t d i (f + 1) =
      if t i < d then
        if (nr i).truthy then
          waitStateAux expected nr st t d (i + 1) f
        else
          match st i with
          | .error _ =>
            (pollCallEvents ++ (waitStateAux expected nr st t d (i + 1) f).1,
              (waitStateAux expected nr st t d (i + 1) f).2)
          | .ok s =>
            if s = expected then (pollCallEvents, .ok true)
            else
              (pollCallEvents ++ (waitStateAux expected nr st t d (i + 1) f).1,
                (waitStateAux expected nr st t d (i + 1) f).2)
      else ([], .error .StatePollTimeout) := rfl

theorem waitStateAux_dichotomy (expected : String) (nr : Nat → PyFlag)
    (st : Nat → Except Unit String) (t : Nat → Nat) (d : Nat) :
    ∀ f i, (waitStateAux expected nr st t d i f).2 = .ok true ∨
      (waitStateAux expected nr st t d i f).2 = .error .StatePollTimeout := by
  intro f
  induction f with
  | zero => intro i; right; rfl
  | succ f ih =>
    intro i
    rw [waitStateAux_succ]
    by_cases h1 : t i < d
    · rw [if_pos h1]
      by_cases h2 : (nr i).truthy = true
      · rw [if_pos h2]; exact ih (i + 1)
      · rw [if_neg h2]
        split
        · exact ih (i + 1)
        · split
          · left; rfl
          · exact ih (i + 1)
    · rw [if_neg h1]; right; rfl

theorem waitStateAux_ok_iff (expected : String) (nr : Nat → PyFlag)
    (st : Nat → Except Unit String) {t : Nat → Nat} (ht : StrictMono t) (d : Nat) :
    ∀ f i, d ≤ t i + f →
      ((waitStateAux expected nr st t d i f).2 = .ok true ↔
        ∃ j, i ≤ j ∧ t j < d ∧ (nr j).truthy = false ∧ st j = .ok expected) := by
  intro f
  induction f with
  | zero =>
    intro i hd
    rw [waitStateAux_zero]
    constructor
    · intro h; exact absurd h (by simp)
    · rintro ⟨j, hij, hj, -, -⟩
      have hm : t i ≤ t j := ht.monotone hij
      omega
  | succ f ih =>
    intro i hd
    have h3 : t i < t (i + 1) := ht (Nat.lt_succ_self i)
    rw [waitStateAux_succ]
    by_cases h1 : t i < d
    · rw [if_pos h1]
      by_cases h2 : (nr i).truthy = true
      · rw [if_pos h2]
        rw [ih (i + 1) (by omega)]
        constructor
        · rintro ⟨j, hij, hj, hnr, hs⟩; exact ⟨j, by omega, hj, hnr, hs⟩
        · rintro ⟨j, hij, hj, hnr, hs⟩
          rcases Nat.eq_or_lt_of_le hij with rfl | hlt
          · rw [h2] at hnr; exact absurd hnr (by simp)
          · exact ⟨j, by omega, hj, hnr, hs⟩
      · rw [if_neg h2]
        have h2f : (nr i).truthy = false := bool_eq_false h2
        have hrec := ih (i + 1) (by omega)
        split
        · next e hst =>
          constructor
          · intro h
            rcases hrec.mp h with ⟨j, hij, hj, hnr, hs⟩
            exact ⟨j, by omega, hj, hnr, hs⟩
          · rintro ⟨j, hij, hj, hnr, hs⟩
            rcases Nat.eq_or_lt_of_le hij with rfl | hlt
            · rw [hst] at hs; exact absurd hs (by simp)
            · exact hrec.mpr ⟨j, by omega, hj, hnr, hs⟩
        · next s hst =>
          by_cases h4 : s = expected
          · rw [if_pos h4]
            constructor
            · intro _
              refine ⟨i, Nat.le_refl i, h1, h2f, ?_⟩
              rw [hst, h4]
            · intro _; rfl
          · rw [if_neg h4]
            constructor
            · intro h
              rcases hrec.mp h with ⟨j, hij, hj, hnr, hs⟩
              exact ⟨j, by omega, hj, hnr, hs⟩
            · rintro ⟨j, hij, hj, hnr, hs⟩
              rcases Nat.eq_or_lt_of_le hij with rfl | hlt
              · rw [hst] at hs
                injection hs with hse
                exact absurd hse h4
              · exact hrec.mpr ⟨j, by omega, hj, hnr, hs⟩
    · rw [if_neg h1]
      constructor
      · intro h; exact absurd h (by simp)
      · rintro ⟨j, hij, hj, -, -⟩
        have hm : t i ≤ t j := ht.monotone hij
        omega

theorem waitStateAux_error_iff (expected : String) (nr : Nat → PyFlag)
    (st : Nat → Except Unit String) {t : Nat → Nat} (ht : StrictMono t) (d : Nat) :
    ∀ f i, d ≤ t i + f →
      ((waitStateAux expected nr st t d i f).2 = .error .StatePollTimeout ↔
        ¬ ∃ j, i ≤ j ∧ t j < d ∧ (nr j).truthy = false ∧ st j = .ok expected) := by
  intro f i hd
  rcases waitStateAux_dichotomy expected nr st t d f i with h | h
  · rw [h]
    constructor
    · intro hh; exact absurd hh (by simp)
    · intro hn; exact absurd ((waitStateAux_ok_iff expected nr st ht d f i hd).mp h) hn
  · rw [h]
    constructor
    · intro _ hex
      have hok := (waitStateAux_ok_iff expected nr st ht d f i hd).mpr hex
      rw [h] at hok
      exact absurd hok (by simp)
    · intro _; rfl

theorem waitStateAux_trace_first_hit (expected : String) (nr : Nat → PyFlag)
    (st : Nat → Except Unit String) {t : Nat → Nat} (ht : StrictMono t) (d : Nat) :
    ∀ f i i0, i ≤ i0 → d ≤ t i + f → t i0 < d →
      (nr i0).truthy = false → st i0 = .ok expected →
      (∀ j, i ≤ j → j < i0 → ¬((nr j).truthy = false ∧ st j = .ok expected)) →
      (waitStateAux expected nr st t d i f).1 = tracesUpTo nr i (i0 + 1 - i) := by
  intro f
  induction f with
  | zero =>
    intro i i0 hii0 hd hi0 _ _ _
    have hm : t i ≤ t i0 := ht.monotone hii0
    exact absurd hi0 (by omega)
  | succ f ih =>
    intro i i0 hii0 hd hi0 hnr0 hst0 hmin
    have h3 : t i < t (i + 1) := ht (Nat.lt_succ_self i)
    rw [waitStateAux_succ]
    have h1 : t i < d := lt_of_le_of_lt (ht.monotone hii0) hi0
    rw [if_pos h1]
    rcases Nat.eq_or_lt_of_le hii0 with rfl | hlt
    · rw [if_neg (by rw [hnr0]; simp)]
      split
      · next e hst =>
        rw [hst0] at hst
        exact absurd hst (by simp)
      · next s hst =>
        have hs : s = expected := by
          rw [hst0] at hst
          injection hst with h
          exact h.symm
        rw [if_pos hs]
        have hm1 : i + 1 - i = 1 := by omega
        rw [hm1, tracesUpTo_succ, tracesUpTo_zero, List.append_nil]
        simp [pollIterEvents, hnr0]
    · have hm1 : i0 + 1 - i = (i0 + 1 - (i + 1)) + 1 := by omega
      have hrec := ih (i + 1) i0 hlt (by omega) hi0 hnr0 hst0
        (fun j hj1 hj2 => hmin j (by omega) hj2)
      by_cases h2 : (nr i).truthy = true
      · rw [if_pos h2, hrec, hm1, tracesUpTo_succ]
        simp [pollIterEvents, h2]
      · have h2f : (nr i).truthy = false := bool_eq_false h2
        rw [if_neg h2]
        have hnot : ¬ ((nr i).truthy = false ∧ st i = .ok expected) :=
          hmin i (Nat.le_refl i) hlt
        split
        · rw [hm1, tracesUpTo_succ]
          show pollCallEvents ++ (waitStateAux expected nr st t d (i + 1) f).1 =
            pollIterEvents nr i ++ tracesUpTo nr (i + 1) (i0 + 1 - (i + 1))
          rw [hrec]
          simp [pollIterEvents, h2f]
        · next s hst =>
          have h4 : ¬ s = expected := by
            intro hcontra
            exact hnot ⟨h2f, by rw [hst, hcontra]⟩
          rw [if_neg h4, hm1, tracesUpTo_succ]
          show pollCallEvents ++ (waitStateAux expected nr st t d (i + 1) f).1 =
            pollIterEvents nr i ++ tracesUpTo nr (i + 1) (i0 + 1 - (i + 1))
          rw [hrec]
          simp [pollIterEvents, h2f]

theorem launch_ghub_aux_zero (att : Nat → LaunchAttempt) (i : Nat) :
    launch_ghub_aux att i 0 = ([], 0, .error .LaunchFailure) := rfl

theorem launch_ghub_aux_succ (att : Nat → LaunchAttempt) (i f : Nat) :
    launch_ghub_aux att i (f + 1) =
      if (att i).fails then
        (attemptEvents (att i) ++ (launch_ghub_aux att (i + 1) f).1,
          (launch_ghub_aux att (i + 1) f).2.1 + 1,
          (launch_ghub_aux att (i + 1) f).2.2)
      else (attemptEvents (att i), 1, .ok ()) := rfl

theorem launch_ghub_aux_count_le (att : Nat → LaunchAttempt) :
    ∀ f i, (launch_ghub_aux att i f).2.1 ≤ f := by
  intro f
  induction f with
  | zero => intro i; rw [launch_ghub_aux_zero]
  | succ f ih =>
    intro i
    rw [launch_ghub_aux_succ]
    by_cases h : (att i).fails = true
    · rw [if_pos h]; exact Nat.succ_le_succ (ih (i + 1))
    · rw [if_neg h]; exact Nat.succ_le_succ (Nat.zero_le f)

theorem launch_ghub_aux_dichotomy (att : Nat → LaunchAttempt) :
    ∀ f i, (launch_ghub_aux att i f).2.2 = .ok () ∨
      (launch_ghub_aux att i f).2.2 = .error .LaunchFailure := by
  intro f
  induction f with
  | zero => intro i; right; rfl
  | succ f ih =>
    intro i
    rw [launch_ghub_aux_succ]
    by_cases h : (att i).fails = true
    · rw [if_pos h]; exact ih (i + 1)
    · rw [if_neg h]; left; rfl

theorem launch_ghub_aux_error_iff (att : Nat → LaunchAttempt) :
    ∀ f i, ((launch_ghub_aux att i f).2.2 = .error .LaunchFailure ↔
      ∀ j, i ≤ j → j < i + f → (att j).fails = true) := by
  intro f
  induction f with
  | zero =>
    intro i
    rw [launch_ghub_aux_zero]
    constructor
    · intro _ j hj1 hj2; exact absurd hj2 (by omega)
    · intro _; rfl
  | succ f ih =>
    intro i
    rw [launch_ghub_aux_succ]
    by_cases h : (att i).fails = true
    · rw [if_pos h]
      have hrec := ih (i + 1)
      constructor
      · intro hh j hj1 hj2
        rcases Nat.eq_or_lt_of_le hj1 with rfl | hlt
        · exact h
        · exact hrec.mp hh j (by omega) (by omega)
      · intro hall
        exact hrec.mpr (fun j hj1 hj2 => hall j (by omega) (by omega))
    · rw [if_neg h]
      constructor
      · intro hh; exact absurd hh (by simp)
      · intro hall
        exact absurd (hall i (Nat.le_refl i) (by omega)) h

theorem launch_ghub_aux_first (att : Nat → LaunchAttempt) :
    ∀ f i, (launch_ghub_aux att i f).2.2 = .ok () →
      ∃ k, i ≤ k ∧ k < i + f ∧ (launch_ghub_aux att i f).2.1 = k - i + 1 ∧
        (att k).fails = false ∧ ∀ j, i ≤ j → j < k → (att j).fails = true := by
  intro f
  induction f with
  | zero =>
    intro i h
    rw [launch_ghub_aux_zero] at h
    exact absurd h (by simp)
  | succ f ih =>
    intro i h
    by_cases hf : (att i).fails = true
    · have h2 : (launch_ghub_aux att (i + 1) f).2.2 = .ok () := by
        rw [launch_ghub_aux_succ, if_pos hf] at h
        exact h
      rcases ih (i + 1) h2 with ⟨k, hk1, hk2, hk3, hk4, hk5⟩
      refine ⟨k, by omega, by omega, ?_, hk4, ?_⟩
      · rw [launch_ghub_aux_succ, if_pos hf]
        show (launch_ghub_aux att (i + 1) f).2.1 + 1 = k - i + 1
        rw [hk3]
        omega
      · intro j hj1 hj2
        rcases Nat.eq_or_lt_of_le hj1 with rfl | hlt
        · exact hf
        · exact hk5 j (by omega) hj2
    · have hf2 : (att i).fails = false := bool_eq_false hf
      refine ⟨i, Nat.le_refl i, by omega, ?_, hf2, fun j hj1 hj2 => absurd hj2 (by omega)⟩
      rw [launch_ghub_aux_succ, if_neg hf]
      show (1 : Nat) = i - i + 1
      omega

/-- C3: for every status payload returned after the reset / check_now /
10-second-settle sequence, `check_for_update` classifies it as follows:
`UPDATER_ERROR` raises `UpdaterError`; `CHECKING_FOR_UPDATES` kills the
updater helper process, waits 10 seconds and raises `UpdateCheckTimeout`;
`NO_UPDATES` returns an absent version; any other state returns the version
field obtained from a GET of `/updates/next/info`. -/
theorem check_for_update_classification (env : CheckEnv) (s : String)
    (hs : env.statusResp = .ok s) :
    (s = "UPDATER_ERROR" → check_for_update env = (checkTraceBase, .error .UpdaterError)) ∧
    (s = "CHECKING_FOR_UPDATES" →
      check_for_update env =
        (checkTraceBase ++ [.kill "lghub_updater", .sleep 10], .error .UpdateCheckTimeout)) ∧
    (s = "NO_UPDATES" → check_for_update env = (checkTraceBase, .ok none)) ∧
    (s ≠ "UPDATER_ERROR" → s ≠ "CHECKING_FOR_UPDATES" → s ≠ "NO_UPDATES" →
      ∀ v, env.nextResp = .ok v →
        check_for_update env =
          (checkTraceBase ++
            [.send .GET "/updates/next/info" none, .getResponse .GET "/updates/next/info"],
            .ok (some v))) := by
  refine ⟨?_, ?_, ?_, ?_⟩
  · intro h; subst h; simp [check_for_update, hs]
  · intro h; subst h; simp [check_for_update, hs]
  · intro h; subst h; simp [check_for_update, hs]
  · intro h1 h2 h3 v hv
    simp [check_for_update, hs, h1, h2, h3, hv]

/-- Witness for C3: a backend whose post-settle status is `NO_UPDATES` makes
`check_for_update` return the absent version. -/
theorem check_for_update_classification_witness :
    check_for_update { statusResp := .ok "NO_UPDATES", nextResp := .ok "1.2.3" } =
      (checkTraceBase, .ok none) :=
  (check_for_update_classification
    { statusResp := .ok "NO_UPDATES", nextResp := .ok "1.2.3" } "NO_UPDATES" rfl).2.2.1 rfl

/-- C4: `set_channel` trims the channel name, SETs `/updates/channel` with
the trimmed name and the password, re-GETs the same path, and succeeds iff
the reflected name equals the requested trimmed name (case-sensitive exact
match), raising `ChannelMismatch` otherwise. -/
theorem set_channel_spec (channel_name password access_tokens : String) (r : ChannelResp) :
    ((set_channel channel_name password access_tokens (.ok r)).2 = .ok () ↔
      r.name = pyStrip channel_name) ∧
    ((set_channel channel_name password access_tokens (.ok r)).2 = .error .ChannelMismatch ↔
      ¬ r.name = pyStrip channel_name) ∧
    (set_channel channel_name password access_tokens (.ok r)).1 =
      [.send .SET "/updates/channel"
        (some { name := pyStrip channel_name, password := password }),
       .send .GET "/updates/channel" none, .getResponse .GET "/updates/channel"] := by
  refine ⟨?_, ?_, rfl⟩
  · by_cases h : r.name = pyStrip channel_name
    · simp [set_channel, h]
    · simp [set_channel, h]
  · by_cases h : r.name = pyStrip channel_name
    · simp [set_channel, h]
    · simp [set_channel, h]

/-- C5: for every retry budget `N`, `launch_ghub` performs the terminate /
wait-10-seconds / launch sequence at most `N` times, returns as soon as one
attempt completes without raising, and raises `LaunchFailure` iff all `N`
attempts raise. -/
theorem launch_ghub_retry_spec (att : Nat → LaunchAttempt) (N : Nat) :
    ((launch_ghub att N).2.1 ≤ N) ∧
    ((launch_ghub att N).2.2 = .error .LaunchFailure ↔ ∀ i, i < N → (att i).fails = true) ∧
    ((launch_ghub att N).2.2 = .ok () ↔ ∃ i, i < N ∧ (att i).fails = false) ∧
    ((launch_ghub att N).2.2 = .ok () →
      ∃ k, k < N ∧ (launch_ghub att N).2.1 = k + 1 ∧ (att k).fails = false ∧
        ∀ i, i < k → (att i).fails = true) := by
  simp only [launch_ghub]
  refine ⟨launch_ghub_aux_count_le att N 0, ?_, ?_, ?_⟩
  · have hiff := launch_ghub_aux_error_iff att N 0
    constructor
    · intro h i hi; exact hiff.mp h i (Nat.zero_le i) (by omega)
    · intro h; exact hiff.mpr (fun j _ hj => h j (by omega))
  · constructor
    · intro h
      by_contra hno
      push_neg at hno
      have hall : ∀ j, 0 ≤ j → j < 0 + N → (att j).fails = true := by
        intro j _ hj
        have hne := hno j (by omega)
        cases hb : (att j).fails with
        | false => exact absurd hb hne
        | true => rfl
      have herr := (launch_ghub_aux_error_iff att N 0).mpr hall
      rw [h] at herr
      exact absurd herr (by simp)
    · rintro ⟨i, hi, hfi⟩
      rcases launch_ghub_aux_dichotomy att N 0 with hok | herr
      · exact hok
      · have := (launch_ghub_aux_error_iff att N 0).mp herr i (Nat.zero_le i) (by omega)
        rw [hfi] at this
        exact absurd this (by simp)
  · intro h
    rcases launch_ghub_aux_first att N 0 h with ⟨k, -, hk2, hk3, hk4, hk5⟩
    refine ⟨k, by omega, ?_, hk4, fun i hi => hk5 i (Nat.zero_le i) hi⟩
    rw [hk3]
    omega

/-- Witness for C5: with a first attempt that succeeds, `launch_ghub` with
the source's default budget of 5 returns successfully. -/
theorem launch_ghub_retry_spec_witness :
    (launch_ghub (fun _ => LaunchAttempt.ok) 5).2.2 = .ok () :=
  (launch_ghub_retry_spec (fun _ => LaunchAttempt.ok) 5).2.2.1.mpr ⟨0, by omega, rfl⟩

/-- C9: the `access_tokens` argument of `set_channel` (and hence of `start`)
is accepted but never included in any payload sent to the backend: two runs
that differ only in the token send exactly the same message sequence and
produce the same result, and the only payload ever sent carries just the
trimmed name and the password. -/
theorem set_channel_token_independence (channel_name password tok1 tok2 : String)
    (resp : Except String ChannelResp) (env : StartEnv) :
    set_channel channel_name password tok1 resp = set_channel channel_name password tok2 resp ∧
    start channel_name password tok1 env = start channel_name password tok2 env ∧
    (set_channel channel_name password tok1 resp).1 =
      [.send .SET "/updates/channel"
        (some { name := pyStrip channel_name, password := password }),
       .send .GET "/updates/channel" none, .getResponse .GET "/updates/channel"] := by
  refine ⟨rfl, rfl, ?_⟩
  cases resp with
  | error e => rfl
  | ok r => rfl

/-- C10: two `get_build_info` calls against a backend whose
`/updates/channel` and `/updates/info` responses are unchanged return
structurally identical `BuildInfo` values (same channel, version, buildId and
branch fields); the embedding is a pure function of the two responses, so
neither call mutates any state. -/
theorem get_build_info_idempotent (env : BuildEnv) (b1 b2 : BuildInfo)
    (h1 : (get_build_info env).2 = .ok b1) (h2 : (get_build_info env).2 = .ok b2) :
    b1.channel = b2.channel ∧ b1.version = b2.version ∧
    b1.buildId = b2.buildId ∧ b1.branch = b2.branch := by
  have h := h1.symm.trans h2
  have hb : b1 = b2 := by
    injection h
  subst hb
  exact ⟨rfl, rfl, rfl, rfl⟩

/-- Witness for C10: a concrete unchanged backend for which both calls
return the same `BuildInfo`. -/
theorem get_build_info_idempotent_witness :
    buildOkReport.channel = buildOkReport.channel ∧
    buildOkReport.version = buildOkReport.version ∧
    buildOkReport.buildId = buildOkReport.buildId ∧
    buildOkReport.branch = buildOkReport.branch :=
  get_build_info_idempotent buildOkEnv buildOkReport buildOkReport rfl rfl

/-- C2 counterexample: under the claimed liveness contract (None means
"still settling", True means "confirmed not running", any other value means
"running"), a flag that constantly reads `False` indicates "running", yet
`wait_until_backend_connected` times out on it; and a flag that constantly
reads `None` ("still settling") makes it succeed immediately.  The code in
fact succeeds exactly on `is None`. -/
theorem wait_until_backend_connected_cex :
    wait_until_backend_connected { flag := fun _ => PyFlag.pfalse, clock := id } 2 =
      .error .ConnectionTimeout ∧
    wait_until_backend_connected { flag := fun _ => PyFlag.pnone, clock := id } 2 = .ok true :=
  ⟨rfl, rfl⟩

/-- C2 (amended): `wait_until_backend_connected` busy-polls the liveness
flag with no backend calls and succeeds exactly when the flag reads `None`
(which the code takes as "backend connected/running"); it raises
`ConnectionTimeout` iff the flag never reads `None` at a check before the
deadline, fixed at loop entry as `clock 0 + max_time` (the source default is
`max_time = 600`).  Dually, `wait_until_backend_disconnected` succeeds
exactly when the flag reads `True`. -/
theorem wait_backend_liveness_spec (env : WaitEnv) (max_time : Nat)
    (ht : StrictMono env.clock) :
    (wait_until_backend_connected env max_time = .ok true ↔
      ∃ i, env.clock i < env.clock 0 + max_time ∧ (env.flag i).isNone = true) ∧
    (wait_until_backend_connected env max_time = .error .ConnectionTimeout ↔
      ¬ ∃ i, env.clock i < env.clock 0 + max_time ∧ (env.flag i).isNone = true) ∧
    (wait_until_backend_disconnected env max_time = .ok true ↔
      ∃ i, env.clock i < env.clock 0 + max_time ∧ (env.flag i).isTrue = true) ∧
    (wait_until_backend_disconnected env max_time = .error .ConnectionTimeout ↔
      ¬ ∃ i, env.clock i < env.clock 0 + max_time ∧ (env.flag i).isTrue = true) := by
  have hok1 := waitFlagAux_ok_iff PyFlag.isNone env.flag ht (env.clock 0 + max_time)
    max_time 0 (by omega)
  have herr1 := waitFlagAux_error_iff PyFlag.isNone env.flag ht (env.clock 0 + max_time)
    max_time 0 (by omega)
  have hok2 := waitFlagAux_ok_iff PyFlag.isTrue env.flag ht (env.clock 0 + max_time)
    max_time 0 (by omega)
  have herr2 := waitFlagAux_error_iff PyFlag.isTrue env.flag ht (env.clock 0 + max_time)
    max_time 0 (by omega)
  simp only [Nat.zero_le, true_and] at hok1 herr1 hok2 herr2
  exact ⟨hok1, herr1, hok2, herr2⟩

/-- Witness for C2's amended theorem: a flag that reads `None` at once makes
the connect wait succeed. -/
theorem wait_backend_liveness_spec_witness :
    wait_until_backend_connected { flag := fun _ => PyFlag.pnone, clock := id } 5 = .ok true :=
  (wait_backend_liveness_spec { flag := fun _ => PyFlag.pnone, clock := id } 5
    strictMono_id).1.mpr ⟨0, by omega, rfl⟩

/-- C6: `wait_for_update_state` busy-polls `/updates/status` and returns
success as soon as the reported state equals the expected state; iterations
where the backend reports not-running are skipped without a status call;
per-iteration transport errors are swallowed and polling continues; it
raises `StatePollTimeout` iff the wall-clock deadline, computed once at loop
entry as `clock 0 + max_time`, elapses without a match. -/
theorem wait_for_update_state_spec (expected : String) (env : PollEnv) (max_time : Nat)
    (ht : StrictMono env.clock) :
    ((wait_for_update_state expected env max_time).2 = .ok true ∨
      (wait_for_update_state expected env max_time).2 = .error .StatePollTimeout) ∧
    ((wait_for_update_state expected env max_time).2 = .ok true ↔
      ∃ i, env.clock i < env.clock 0 + max_time ∧ (env.notRunning i).truthy = false ∧
        env.status i = .ok expected) ∧
    ((wait_for_update_state expected env max_time).2 = .error .StatePollTimeout ↔
      ¬ ∃ i, env.clock i < env.clock 0 + max_time ∧ (env.notRunning i).truthy = false ∧
        env.status i = .ok expected) ∧
    (∀ i, (env.notRunning i).truthy = true → pollIterEvents env.notRunning i = []) ∧
    (∀ i0, env.clock i0 < env.clock 0 + max_time → (env.notRunning i0).truthy = false →
      env.status i0 = .ok expected →
      (∀ j, j < i0 → ¬((env.notRunning j).truthy = false ∧ env.status j = .ok expected)) →
      (wait_for_update_state expected env max_time).1 =
        tracesUpTo env.notRunning 0 (i0 + 1)) := by
  have hok := waitStateAux_ok_iff expected env.notRunning env.status ht
    (env.clock 0 + max_time) max_time 0 (by omega)
  have herr := waitStateAux_error_iff expected env.notRunning env.status ht
    (env.clock 0 + max_time) max_time 0 (by omega)
  simp only [Nat.zero_le, true_and] at hok herr
  refine ⟨waitStateAux_dichotomy expected env.notRunning env.status env.clock
    (env.clock 0 + max_time) max_time 0, hok, herr, ?_, ?_⟩
  · intro i hi
    simp [pollIterEvents, hi]
  · intro i0 h1 h2 h3 h4
    have := waitStateAux_trace_first_hit expected env.notRunning env.status ht
      (env.clock 0 + max_time) max_time 0 i0 (Nat.zero_le i0) (by omega) h1 h2 h3
      (fun j _ hj2 => h4 j hj2)
    simpa using this

/-- Witness for C6: a backend that reports the expected state at the first
poll makes `wait_for_update_state` succeed. -/
theorem wait_for_update_state_spec_witness :
    (wait_for_update_state "UPDATE_READY" pollTrivialEnv 5).2 = .ok true :=
  (wait_for_update_state_spec "UPDATE_READY" pollTrivialEnv 5 strictMono_id).2.1.mpr
    ⟨0, by omega, rfl, rfl⟩

/-- C7 counterexample: after successful disconnect/reconnect waits, the
post-install `check_for_update` reports an available update with version
`""` (it returns that version string), yet `install_new_update` does NOT
raise `InstallIncomplete`: the code tests the returned value with Python
truthiness, and the empty string is falsy. -/
theorem install_incomplete_truthiness_cex :
    (check_for_update installCexEnv.check2).2 = .ok (some "") ∧
    (install_new_update installCexEnv).2 = .ok () :=
  ⟨rfl, rfl⟩

theorem check_for_update_no_install_error (env : CheckEnv) :
    ¬ (check_for_update env).2 = .error .InstallIncomplete := by
  intro h
  unfold check_for_update at h
  repeat' split at h
  all_goals simp at h

/-- C7 (amended): a failure of the SET `/updates/install` request is not
fatal (the surrounding except only logs a warning, so neither the result nor
the remaining calls depend on it), and the procedure still proceeds to wait
for disconnect, reconnect and the fixed 20-second stabilization, then
re-runs `check_for_update`; it raises `InstallIncomplete` iff
`check_for_update` returns a Python-truthy value, i.e. a non-empty version
string (an empty version string or the no-update `False` is treated as a
completed install). -/
theorem install_new_update_spec (env : InstallEnv) :
    (∀ b, install_new_update { env with installSendRaises := b } = install_new_update env) ∧
    (wait_until_backend_disconnected env.disc 600 = .ok true →
      wait_until_backend_connected env.conn 600 = .ok true →
      ((install_new_update env).1 =
        [.send .SET "/updates/install" none, .sleep 20] ++ (check_for_update env.check2).1) ∧
      ((install_new_update env).2 = .error .InstallIncomplete ↔
        ∃ v, (check_for_update env.check2).2 = .ok (some v) ∧ v ≠ "") ∧
      (∀ e, (check_for_update env.check2).2 = .error e →
        (install_new_update env).2 = .error e) ∧
      ((check_for_update env.check2).2 = .ok none → (install_new_update env).2 = .ok ()) ∧
      ((check_for_update env.check2).2 = .ok (some "") →
        (install_new_update env).2 = .ok ())) := by
  constructor
  · intro b; rfl
  · intro hd hc
    have hne := check_for_update_no_install_error env.check2
    unfold install_new_update
    rw [hd, hc]
    rcases hck : check_for_update env.check2 with ⟨tc, rc⟩
    rw [hck] at hne
    rcases rc with e | v
    · refine ⟨rfl, ?_, ?_, ?_, ?_⟩
      · constructor
        · intro h
          simp at h
          subst h
          exact absurd rfl hne
        · rintro ⟨v, hv, -⟩
          simp at hv
      · intro e2 he
        injection he with he2
        subst he2
        rfl
      · intro h; simp at h
      · intro h; simp at h
    · rcases v with - | v
      · refine ⟨rfl, ?_, ?_, ?_, ?_⟩
        · constructor
          · intro h
            simp [pyTruthyStr] at h
          · rintro ⟨v, hv, -⟩
            simp at hv
        · intro e2 he; simp at he
        · intro _; rfl
        · intro h; simp at h
      · by_cases hv : v = ""
        · subst hv
          refine ⟨rfl, ?_, ?_, ?_, ?_⟩
          · constructor
            · intro h
              simp [pyTruthyStr] at h
            · rintro ⟨w, hw, hw2⟩
              injection hw with hw3
              injection hw3 with hw4
              exact absurd hw4.symm hw2
          · intro e2 he; simp [pyTruthyStr] at he
          · intro h; simp at h
          · intro _; rfl
        · refine ⟨?_, ?_, ?_, ?_, ?_⟩
          · simp [pyTruthyStr, hv]
          · constructor
            · intro _; exact ⟨v, rfl, hv⟩
            · intro _
              simp [pyTruthyStr, hv]
          · intro e2 he; simp at he
          · intro h; simp at h
          · intro h
            simp at h
            exact absurd h hv

/-- Witness for C7's amended theorem: with immediate disconnect/reconnect
and a post-install check still reporting version "9.9",
`install_new_update` raises `InstallIncomplete`. -/
theorem install_new_update_spec_witness :
    (install_new_update installWitnessEnv).2 = .error .InstallIncomplete :=
  (((install_new_update_spec installWitnessEnv).2 rfl rfl).2.1).mpr ⟨"9.9", rfl, by decide⟩

/-- C8: the entry point catches any failure of the first `start` invocation
and retries the whole workflow exactly once with the same arguments; a
failure of the second invocation propagates as the result; and the
`finally`-level terminate-all runs in all cases, as the last action. -/
theorem main_entry_spec (channel password token : String) (w1 w2 : StartEnv) :
    ((start channel password token w1).2.2 = .ok () →
      main_entry channel password token w1 w2 =
        ((start channel password token w1).1 ++ [Event.terminateAll], .ok ())) ∧
    (∀ e, (start channel password token w1).2.2 = .error e →
      main_entry channel password token w1 w2 =
        ((start channel password token w1).1 ++ (start channel password token w2).1 ++
          [Event.terminateAll], (start channel password token w2).2.2)) ∧
    ((main_entry channel password token w1 w2).2 = .ok () ↔
      ((start channel password token w1).2.2 = .ok () ∨
        (start channel password token w2).2.2 = .ok ())) ∧
    ((main_entry channel password token w1 w2).1.getLast? = some Event.terminateAll) := by
  unfold main_entry
  rcases h1 : start channel password token w1 with ⟨t1, b1, r1⟩
  rcases r1 with e1 | u1
  · rcases h2 : start channel password token w2 with ⟨t2, b2, r2⟩
    refine ⟨?_, ?_, ?_, ?_⟩
    · intro hok; simp at hok
    · intro e he; rfl
    · rcases r2 with e2 | u2
      · simp
      · simp
    · show (t1 ++ (t2, b2, r2).1 ++ [Event.terminateAll]).getLast? = some Event.terminateAll
      rw [List.getLast?_concat]
  · refine ⟨?_, ?_, ?_, ?_⟩
    · intro _; rfl
    · intro e he; simp at he
    · simp
    · show (t1 ++ [Event.terminateAll]).getLast? = some Event.terminateAll
      rw [List.getLast?_concat]

/-- Witness for C8: with a first invocation that succeeds, the entry point
runs `start` once and appends the cleanup terminate-all. -/
theorem main_entry_spec_witness :
    main_entry "Beta" "" "" startOkEnv startOkEnv =
      ((start "Beta" "" "" startOkEnv).1 ++ [Event.terminateAll], .ok ()) :=
  (main_entry_spec "Beta" "" "" startOkEnv startOkEnv).1 rfl

/-- C1 counterexample: in `startCexEnv` the backend reflects channel
"Stable" although "Beta" was requested, so step 4 of `start` raises
`ChannelMismatch`; the final terminate-all cleanup of `start` is NOT
reached (the recorded cleanup flag is `false` and the last performed action
is the channel re-GET, not a terminate-all). -/
theorem start_cleanup_cex :
    (start "Beta" "" "" startCexEnv).2.2 = .error .ChannelMismatch ∧
    (start "Beta" "" "" startCexEnv).2.1 = false ∧
    (start "Beta" "" "" startCexEnv).1.getLast? =
      some (.getResponse .GET "/updates/channel") :=
  ⟨rfl, rfl, rfl⟩

/-- C1 (amended): `start` reaches its final terminate-all cleanup iff steps
1-7 all complete without raising: the cleanup flag is `true` exactly when
`start` returns normally, and in that case the trace ends with the
terminate-all call; when any step raises, the error propagates out of
`start` without the cleanup running (the unconditional cleanup is instead
performed by the entry point's `finally`). -/
theorem start_cleanup_only_on_success (channel_name password access_tokens : String)
    (env : StartEnv) :
    ((start channel_name password access_tokens env).2.2 = .ok () ↔
      (start channel_name password access_tokens env).2.1 = true) ∧
    ((start channel_name password access_tokens env).2.1 = true →
      ∃ pre, (start channel_name password access_tokens env).1 = pre ++ [Event.terminateAll]) := by
  unfold start
  repeat' split
  all_goals refine ⟨by simp, fun h => ?_⟩
  all_goals first
    | exact ⟨_, rfl⟩
    | simp at h

/-- Witness for C1's amended theorem: in `startOkEnv` every step succeeds,
the cleanup flag is set and `start` returns normally. -/
theorem start_cleanup_only_on_success_witness :
    (start "Beta" "" "" startOkEnv).2.2 = .ok () :=
  (start_cleanup_only_on_success "Beta" "" "" startOkEnv).1.mpr rfl
